import Mathlib

/-!
# cSigner (`sign_ext.c`): a shallow embedding

The extension module keeps five process-wide variables (`libs`, `offset`,
`module_base`, `module`, `sign_func`) and exposes five operations on them:
`set_libs`, `set_offset`, `load_module`, `unload_module` and `sign`.

The embedding passes the five variables around as a `Registry`.  Everything
the C code obtains from outside (the dynamic loader, the C allocator, the
function behind the resolved pointer, the object allocator of the
interpreter) is a parameter of the operation that uses it.  Pointers are natural numbers with
`0` for `NULL`; pointer arithmetic is reduced modulo `2 ^ 64`.  A step that
the C standard leaves undefined (reading through `NULL` or through a freed
block, a call that does not return) is the outcome `Step.undefined`.

Each operation is embedded from the point where `PyArg_ParseTuple` has
succeeded, on the C values it produced.
-/

namespace CSigner

/-! ## Data model -/

/-- An `unsigned char`. -/
abbrev Byte := Fin 256

/-- A `void*` / `uintptr_t`; `0` is `NULL`. -/
abbrev Ptr := Nat

/-- Width of `uintptr_t`. -/
def PTR_MOD : Nat := 2 ^ 64

/-- Python exception classes raised by the module. -/
inductive PyExc where
  | RuntimeError
  | TypeError
  | MemoryError
  deriving DecidableEq, Repr

/-- A pending Python exception: class and message. -/
structure PyErr where
  exc : PyExc
  msg : String
  deriving DecidableEq, Repr

/-- The state of the global `char** libs`. -/
inductive LibsPtr where
  /-- The pointer is `NULL` (the initialiser, or a failed `malloc`). -/
  | null
  /-- The pointer addresses a live `NULL`-terminated array holding these strings. -/
  | live (paths : List String)
  /-- The pointer addresses a block that has been passed to `free`. -/
  | freed
  deriving DecidableEq, Repr

/-- The five file-scope variables of `sign_ext.c`. -/
structure Registry where
  libs : LibsPtr
  offset : Nat
  module_base : Nat
  module : Ptr
  sign_func : Ptr
  deriving DecidableEq, Repr

/-- The initialisers at lines 18-22. -/
def Registry.init : Registry :=
  { libs := .null, offset := 0, module_base := 0, module := 0, sign_func := 0 }

/-- Calls that leave the extension, in program order. -/
inductive Event where
  | dlopen (path : String) (flags : Nat)
  | dlclose (handle : Ptr)
  | call (addr : Ptr)
  deriving DecidableEq, Repr

/-- What a Python-level call hands back: a value, or `NULL` with an exception set. -/
inductive PyResult (α : Type) where
  | ok (v : α)
  | raise (e : PyErr)
  deriving DecidableEq, Repr

/-- One operation: either undefined behaviour, or the registry it leaves, the
external calls it made and its Python-level result. -/
inductive Step (α : Type) where
  | undefined
  | done (r : Registry) (log : List Event) (res : PyResult α)
  deriving DecidableEq, Repr

/-! ## Error values (class and message as written in the source) -/

def NotLoadedError : PyErr := ⟨.RuntimeError, "Sign function not loaded"⟩
def SignFailureError : PyErr := ⟨.RuntimeError, "Sign function returned error"⟩
def ModuleNotFoundError : PyErr := ⟨.RuntimeError, "Failed to find module base"⟩
def InvalidPointerError : PyErr := ⟨.RuntimeError, "Invalid function pointer"⟩
def ExpectedListError : PyErr := ⟨.TypeError, "Expected a list"⟩
def InvalidArgument : PyErr := ⟨.TypeError, "Expected string in list"⟩
def LibsAllocationError : PyErr := ⟨.MemoryError, "Failed to allocate memory for libs"⟩
def StrdupAllocationError : PyErr := ⟨.MemoryError, "Failed to duplicate string"⟩
/-- The error of a failed `dlopen`: `RuntimeError` carrying `dlerror()`. -/
def DynamicLoadError (diagnostic : String) : PyErr := ⟨.RuntimeError, diagnostic⟩
/-- The error the interpreter sets when it cannot allocate an object. -/
def HostMemoryError : PyErr := ⟨.MemoryError, ""⟩

/-! ## The output buffer -/

/-- The array `unsigned char output_buf[0x300]`. -/
structure OutputBuf where
  bytes : List Byte
  size : bytes.length = 0x300

/-- The initialiser `= {0}`. -/
def OutputBuf.zero : OutputBuf := ⟨List.replicate 0x300 0, List.length_replicate _ _⟩

/-- The element `output_buf[i]` for an index inside the array. -/
def OutputBuf.at (b : OutputBuf) (i : Nat) (h : i < 0x300) : Byte :=
  b.bytes.get ⟨i, by rw [b.size]; exact h⟩

/-- Line 155: `unsigned char token_len = output_buf[0x0FF]`. -/
def token_len (b : OutputBuf) : Nat := (b.at 0x0FF (by decide)).val
/-- Line 156: `unsigned char extra_len = output_buf[0x1FF]`. -/
def extra_len (b : OutputBuf) : Nat := (b.at 0x1FF (by decide)).val
/-- Line 157: `unsigned char sign_len = output_buf[0x2FF]`. -/
def sign_len (b : OutputBuf) : Nat := (b.at 0x2FF (by decide)).val

/-- The bytes `output_buf[off .. off+len)` copied by
`PyBytes_FromStringAndSize(output_buf + off, len)`; reading past the end of
the array is undefined (`none`). -/
def readBuf (b : OutputBuf) (off len : Nat) : Option (List Byte) :=
  if off + len ≤ 0x300 then some ((b.bytes.drop off).take len) else none

/-! ## The outside world -/

/-- One entry handed to the `dl_iterate_phdr` callback; `dlpi_name = none` is a
`NULL` name. -/
structure dl_phdr_info where
  dlpi_addr : Nat
  dlpi_name : Option String
  deriving DecidableEq, Repr

/-- The dynamic loader as one `load_module` call sees it: the handle `dlopen`
answers for a path and flags (`0` when it fails), the text `dlerror()` returns
after a failure, and the loaded objects in the order `dl_iterate_phdr` visits
them. -/
structure Platform where
  dlopen : String → Nat → Ptr
  dlerror : String
  phdrs : List dl_phdr_info

/-- The C allocator as one `set_libs` call sees it: whether `malloc` succeeds
and whether the `strdup` for element `i` succeeds. -/
structure Alloc where
  malloc_ok : Bool
  strdup_ok : Nat → Bool

/-- The process as one `sign` call sees it.  `call addr cmd data len seq buf`
is the effect of calling address `addr` with the fixed signature: the `int` it
returns and the buffer it leaves, or `none` when the call does not return.
The flags say whether the three `PyBytes_FromStringAndSize` calls and
`PyTuple_New` obtain their object. -/
structure Host where
  call : Ptr → String → List Byte → Int → Int → OutputBuf → Option (Int × OutputBuf)
  bytes_ok : Fin 3 → Bool
  tuple_ok : Bool

def RTLD_LAZY : Nat := 0x00001
def RTLD_GLOBAL : Nat := 0x00100

/-- The conversion `(int)src_len` from `Py_ssize_t`. -/
def toCInt (n : Int) : Int := (n + 2 ^ 31) % 2 ^ 32 - 2 ^ 31

/-- Whether `needle` starts `hay`. -/
def startsWith : List Char → List Char → Bool
  | _, [] => true
  | [], _ :: _ => false
  | h :: hs, n :: ns => h == n && startsWith hs ns

/-- Whether `needle` occurs in `hay`, on character lists. -/
def occursIn (needle : List Char) : List Char → Bool
  | [] => startsWith [] needle
  | h :: hs => startsWith (h :: hs) needle || occursIn needle hs

/-- The test `strstr(haystack, needle) != NULL`. -/
def strstr (haystack needle : String) : Bool := occursIn needle.data haystack.data

/-- Python objects as `set_libs` tells them apart. -/
inductive PyItem where
  /-- A `str`; `utf8` is what `PyUnicode_AsUTF8` returns (`none` for `NULL`). -/
  | unicode (utf8 : Option String)
  /-- Any object failing `PyUnicode_Check`. -/
  | other
  deriving DecidableEq, Repr

/-- The single argument of `set_libs`. -/
inductive PyObject where
  /-- A `list` with these elements. -/
  | list (items : List PyItem)
  /-- Any object failing `PyList_Check`. -/
  | other
  deriving DecidableEq, Repr

/-- The copy `strdup` makes: the characters before the first NUL. -/
def strdup (s : String) : String := ⟨s.data.takeWhile (fun c => c != Char.ofNat 0)⟩

/-! ## `callback` and `py_load_module` (lines 24-62) -/

/-- Lines 24-30: the callback writes `module_base` on a match and returns 1. -/
def callback (info : dl_phdr_info) (r : Registry) : Registry × Int :=
  match info.dlpi_name with
  | some name =>
    if strstr name "wrapper.node" then ({ r with module_base := info.dlpi_addr }, 1)
    else (r, 0)
  | none => (r, 0)

/-- The loader walks its objects and stops at the first non-zero return. -/
def dl_iterate_phdr (cb : dl_phdr_info → Registry → Registry × Int) :
    List dl_phdr_info → Registry → Registry
  | [], r => r
  | info :: rest, r =>
    let out := cb info r
    if out.2 ≠ 0 then out.1 else dl_iterate_phdr cb rest out.1

/-- Lines 33-39 on a live array: open each path in order; stop at the first
failure.  Returns the `dlopen` calls made and whether the loop failed. -/
def preload (p : Platform) : List String → List Event × Bool
  | [] => ([], false)
  | lib :: rest =>
    let ev := Event.dlopen lib (RTLD_LAZY ||| RTLD_GLOBAL)
    if p.dlopen lib (RTLD_LAZY ||| RTLD_GLOBAL) = 0 then ([ev], true)
    else
      let out := preload p rest
      (ev :: out.1, out.2)

/-- Lines 32-62.  The loop condition `libs[i] != NULL` reads through `libs`,
which is undefined when `libs` is `NULL` or freed.  Every assignment to a
global is made where the source makes it: `module` at line 41, `module_base`
inside the callback, `sign_func` at line 54, each before the test that
follows it; the failure paths call `dlclose` and return. -/
def py_load_module (p : Platform) (r : Registry) : Step Unit :=
  match r.libs with
  | .null => .undefined
  | .freed => .undefined
  | .live paths =>
    let pre := preload p paths
    if pre.2 then .done r pre.1 (.raise (DynamicLoadError p.dlerror))
    else
      let r1 := { r with module := p.dlopen "./wrapper.node" RTLD_LAZY }
      let log1 := pre.1 ++ [Event.dlopen "./wrapper.node" RTLD_LAZY]
      if r1.module = 0 then .done r1 log1 (.raise (DynamicLoadError p.dlerror))
      else
        let r2 := dl_iterate_phdr callback p.phdrs r1
        if r2.module_base = 0 then
          .done r2 (log1 ++ [Event.dlclose r2.module]) (.raise ModuleNotFoundError)
        else
          let r3 := { r2 with sign_func := (r2.module_base + r2.offset) % PTR_MOD }
          if r3.sign_func < 0x1000 then
            .done r3 (log1 ++ [Event.dlclose r3.module]) (.raise InvalidPointerError)
          else .done r3 log1 (.ok ())

/-! ## `py_unload_module` (lines 64-72) -/

/-- Lines 64-72: with a handle held, close it and zero the three variables;
otherwise do nothing. -/
def py_unload_module (r : Registry) : Step Unit :=
  if r.module ≠ 0 then
    .done { r with module := 0, sign_func := 0, module_base := 0 } [Event.dlclose r.module] (.ok ())
  else .done r [] (.ok ())

/-! ## `py_set_libs` (lines 74-116) -/

/-- Lines 93-112 from index `i` on; `copied` holds `libs[0 .. i)`.  The
result is `none` for undefined behaviour (`strdup(NULL)`), otherwise the state
of `libs` and the Python-level result. -/
def set_libs_loop (a : Alloc) : List PyItem → Nat → List String → Option (LibsPtr × PyResult Unit)
  | [], _, copied => some (.live copied, .ok ())
  | .other :: _, _, _ => some (.freed, .raise InvalidArgument)
  | .unicode none :: _, _, _ => none
  | .unicode (some lib_cstr) :: rest, i, copied =>
    if a.strdup_ok i then set_libs_loop a rest (i + 1) (copied ++ [strdup lib_cstr])
    else some (.freed, .raise StrdupAllocationError)

/-- Lines 80-115.  The global `libs` receives the result of `malloc` at line 87,
before any element is looked at, and keeps that pointer on every later path. -/
def py_set_libs (a : Alloc) (libs_list : PyObject) (r : Registry) : Step Unit :=
  match libs_list with
  | .other => .done r [] (.raise ExpectedListError)
  | .list items =>
    if !a.malloc_ok then .done { r with libs := .null } [] (.raise LibsAllocationError)
    else
      match set_libs_loop a items 0 [] with
      | none => .undefined
      | some (libs, res) => .done { r with libs := libs } [] res

/-! ## `py_set_offset` (lines 118-126) -/

/-- Lines 118-126; the format `K` keeps the low 64 bits of the integer. -/
def py_set_offset (offset_val : Nat) (r : Registry) : Step Unit :=
  .done { r with offset := offset_val % PTR_MOD } [] (.ok ())

/-! ## `py_sign` (lines 128-176) -/

/-- Lines 138-175.  The callee receives the zeroed buffer.  After return code 0
the three objects are created from the buffer; if one of them is `NULL` the
function returns `NULL` (lines 163-168).  `PyTuple_New` is not checked, so a
`NULL` tuple reaches `PyTuple_SetItem`. -/
def py_sign (h : Host) (r : Registry) (cmd : String) (src_data : List Byte) (seq : Int) :
    Step (List Byte × List Byte × List Byte) :=
  if r.sign_func = 0 then .done r [] (.raise NotLoadedError)
  else
    match h.call r.sign_func cmd src_data (toCInt src_data.length) seq OutputBuf.zero with
    | none => .undefined
    | some (result, output_buf) =>
      let log := [Event.call r.sign_func]
      if result ≠ 0 then .done r log (.raise SignFailureError)
      else
        match readBuf output_buf 0 (token_len output_buf),
              readBuf output_buf 0x100 (extra_len output_buf),
              readBuf output_buf 0x200 (sign_len output_buf) with
        | some token_bytes, some extra_bytes, some sign_bytes =>
          if !(h.bytes_ok 0 && h.bytes_ok 1 && h.bytes_ok 2) then
            .done r log (.raise HostMemoryError)
          else if !h.tuple_ok then .undefined
          else .done r log (.ok (token_bytes, extra_bytes, sign_bytes))
        | _, _, _ => .undefined

/-! ## Concrete inputs used by the worked examples -/

/-- A buffer with length bytes 5, 3 and 10 and recognisable slot contents:
slot `k` holds `16 * (k + 1) + j` at position `j < 10`. -/
def sampleBuf : OutputBuf :=
  ⟨(List.range 0x300).map (fun i =>
      if i = 0x0FF then 5 else if i = 0x1FF then 3 else if i = 0x2FF then 10
      else if i % 0x100 < 10 then Fin.ofNat (16 * (i / 0x100 + 1) + i % 0x100) else 0),
    by rw [List.length_map, List.length_range]⟩

/-- A callee that leaves `sampleBuf` and returns `rc`; every object is allocated. -/
def sampleHost (rc : Int) : Host :=
  { call := fun _ _ _ _ _ _ => some (rc, sampleBuf), bytes_ok := fun _ => true, tuple_ok := true }

/-- The buffer with every byte `0xFF`: the three length bytes are 255, the largest
value an `unsigned char` holds. -/
def fullBuf : OutputBuf := ⟨List.replicate 0x300 255, List.length_replicate _ _⟩

/-- A callee that leaves `fullBuf` and returns 0; every object is allocated. -/
def fullHost : Host :=
  { call := fun _ _ _ _ _ _ => some (0, fullBuf), bytes_ok := fun _ => true, tuple_ok := true }

/-- A callee mapped at and above `0x1000`: a call to a lower address does not return. -/
def mappedHost : Host :=
  { call := fun addr _ _ _ _ _ => if addr < 0x1000 then none else some (0, sampleBuf),
    bytes_ok := fun _ => true, tuple_ok := true }

/-- A resolved registry: `wrapper.node` mapped at `0x7f0000000000`, offset `0x2a40`. -/
def loadedRegistry : Registry :=
  { libs := .live ["libgnutls.so.30"], offset := 0x2a40, module_base := 0x7f0000000000,
    module := 0x55550000, sign_func := 0x7f0000002a40 }

/-- A loader on which `dlopen` answers the handle `0x55550000` for `./wrapper.node`, `0x1`
for `libgnutls.so.30` and fails for every other path; the main program and
`wrapper.node` (at `0x7f0000000000`) are loaded. -/
def samplePlatform : Platform :=
  { dlopen := fun path _ =>
      if path = "./wrapper.node" then 0x55550000 else if path = "libgnutls.so.30" then 1 else 0,
    dlerror := "cannot open shared object file",
    phdrs := [⟨0x555555554000, some ""⟩, ⟨0x7ffff7fc1000, none⟩,
      ⟨0x7f0000000000, some "/opt/QQ/resources/app/./wrapper.node"⟩] }

/-- An allocator on which every request succeeds. -/
def goodAlloc : Alloc := { malloc_ok := true, strdup_ok := fun _ => true }

/-- The configuration `set_libs(["libgnutls.so.30"])`, `set_offset(0x2a40)` before any load. -/
def configuredRegistry : Registry :=
  { libs := .live ["libgnutls.so.30"], offset := 0x2a40, module_base := 0, module := 0,
    sign_func := 0 }

/-- The configuration `set_libs([])`, `set_offset(0xFFFF810000000010)` before any
load: added to the base `0x7f0000000000` the offset wraps around to `0x10`. -/
def wrapRegistry : Registry :=
  { libs := .live [], offset := 0xFFFF810000000010, module_base := 0, module := 0,
    sign_func := 0 }

/-- A loader on which `libgnutls.so.30` opens and `./wrapper.node` does not (for
instance after the working directory changed). -/
def targetMissingPlatform : Platform :=
  { dlopen := fun path _ => if path = "libgnutls.so.30" then 1 else 0,
    dlerror := "./wrapper.node: cannot open shared object file",
    phdrs := [⟨0x555555554000, some ""⟩,
      ⟨0x7f0000000000, some "/opt/QQ/resources/app/./wrapper.node"⟩] }

/-! ## Sequences of calls -/

/-- Whether a loaded object carries a name containing `wrapper.node`. -/
def nameContainsTarget (info : dl_phdr_info) : Bool :=
  match info.dlpi_name with
  | some name => strstr name "wrapper.node"
  | none => false

/-- A call of one of the four operations that write the registry, with the
outside world it meets. -/
inductive Op where
  | set_libs (a : Alloc) (libs_list : PyObject)
  | set_offset (offset_val : Nat)
  | unload_module
  | load_module (p : Platform)

/-- The operation behind a call. -/
def Op.step : Op → Registry → Step Unit
  | .set_libs a libs_list, r => py_set_libs a libs_list r
  | .set_offset offset_val, r => py_set_offset offset_val r
  | .unload_module, r => py_unload_module r
  | .load_module p, r => py_load_module p r

/-- Whether this call is a `load_module` that returned normally. -/
def Op.loaded : Op → PyResult Unit → Bool
  | .load_module _, .ok _ => true
  | _, _ => false

/-- Runs the calls in order.  The result is `none` when one of them is
undefined; otherwise the registry at the end and whether some `load_module`
call returned normally. -/
def runCalls : List Op → Registry → Option (Registry × Bool)
  | [], r => some (r, false)
  | op :: rest, r =>
    match op.step r with
    | .undefined => none
    | .done r1 _ res =>
      match runCalls rest r1 with
      | none => none
      | some (r2, loaded) => some (r2, op.loaded res || loaded)

/-! ## Facts about the output buffer -/

/-- An element of the buffer is at most 255. -/
theorem OutputBuf.at_le (b : OutputBuf) (i : Nat) (h : i < 0x300) : (b.at i h).val ≤ 255 :=
  Nat.le_of_lt_succ (b.at i h).isLt

/-- A read that ends inside the array yields exactly the bytes asked for. -/
theorem readBuf_of_le (b : OutputBuf) (off len : Nat) (h : off + len ≤ 0x300) :
    readBuf b off len = some ((b.bytes.drop off).take len) ∧
      ((b.bytes.drop off).take len).length = len := by
  refine ⟨if_pos h, ?_⟩
  rw [List.length_take, List.length_drop, b.size]
  omega

/-- The three slices end inside their slots, before the slot length byte. -/
theorem slices_in_slots (b : OutputBuf) :
    0 + token_len b ≤ 0x0FF ∧ 0x100 + extra_len b ≤ 0x1FF ∧ 0x200 + sign_len b ≤ 0x2FF := by
  have ht := b.at_le 0x0FF (by decide)
  have he := b.at_le 0x1FF (by decide)
  have hs := b.at_le 0x2FF (by decide)
  unfold token_len extra_len sign_len
  omega

/-- The outcome of `py_sign` once the callee returned 0 and every object was allocated. -/
theorem py_sign_ok (h : Host) (r : Registry) (cmd : String) (src_data : List Byte) (seq : Int)
    (B : OutputBuf) (hres : r.sign_func ≠ 0)
    (hcall : h.call r.sign_func cmd src_data (toCInt src_data.length) seq OutputBuf.zero
      = some (0, B))
    (hbytes : ∀ i, h.bytes_ok i = true) (htuple : h.tuple_ok = true) :
    py_sign h r cmd src_data seq =
      .done r [Event.call r.sign_func]
        (.ok ((B.bytes.drop 0).take (token_len B), (B.bytes.drop 0x100).take (extra_len B),
          (B.bytes.drop 0x200).take (sign_len B))) := by
  obtain ⟨ht, he, hs⟩ := slices_in_slots B
  unfold py_sign
  rw [if_neg hres, hcall]
  simp only [ne_eq, not_true_eq_false, if_false,
    (readBuf_of_le B 0 (token_len B) (by omega)).1,
    (readBuf_of_le B 0x100 (extra_len B) (by omega)).1,
    (readBuf_of_le B 0x200 (sign_len B) (by omega)).1, hbytes, htuple, Bool.and_self,
    Bool.not_true, Bool.false_eq_true]

/-- With no resolved pointer `py_sign` raises before any call is made. -/
theorem py_sign_unresolved (h : Host) (r : Registry) (cmd : String) (src_data : List Byte)
    (seq : Int) (hnull : r.sign_func = 0) :
    py_sign h r cmd src_data seq = .done r [] (.raise NotLoadedError) := by
  unfold py_sign
  rw [if_pos hnull]

/-! ## Claims about `sign` -/

/-- C1: on a registry whose function pointer is resolved, when the callee
returns 0 and leaves the 768-byte buffer `B` (and the three result objects and
the tuple are allocated), `sign` calls the resolved address once and returns
exactly `(B[0 .. B[255]), B[256 .. 256+B[511]), B[512 .. 512+B[767]))`, of
lengths `B[255]`, `B[511]` and `B[767]`. -/
theorem sign_returns_three_slices (h : Host) (r : Registry) (cmd : String)
    (src_data : List Byte) (seq : Int) (B : OutputBuf) (hres : r.sign_func ≠ 0)
    (hcall : h.call r.sign_func cmd src_data (toCInt src_data.length) seq OutputBuf.zero
      = some (0, B))
    (hbytes : ∀ i, h.bytes_ok i = true) (htuple : h.tuple_ok = true) :
    py_sign h r cmd src_data seq =
        .done r [Event.call r.sign_func]
          (.ok (B.bytes.take (B.at 255 (by decide)).val,
            (B.bytes.drop 256).take (B.at 511 (by decide)).val,
            (B.bytes.drop 512).take (B.at 767 (by decide)).val)) ∧
      (B.bytes.take (B.at 255 (by decide)).val).length = (B.at 255 (by decide)).val ∧
      ((B.bytes.drop 256).take (B.at 511 (by decide)).val).length = (B.at 511 (by decide)).val ∧
      ((B.bytes.drop 512).take (B.at 767 (by decide)).val).length
        = (B.at 767 (by decide)).val := by
  obtain ⟨ht, he, hs⟩ := slices_in_slots B
  have h0 := (readBuf_of_le B 0 (token_len B) (by omega)).2
  have h1 := (readBuf_of_le B 0x100 (extra_len B) (by omega)).2
  have h2 := (readBuf_of_le B 0x200 (sign_len B) (by omega)).2
  rw [List.drop_zero] at h0
  refine ⟨?_, h0, h1, h2⟩
  have hk := py_sign_ok h r cmd src_data seq B hres hcall hbytes htuple
  rw [List.drop_zero] at hk
  exact hk

set_option maxRecDepth 100000 in
/-- C1, worked example: length bytes 5, 3 and 10 give results of 5, 3 and 10
bytes taken from offsets 0, 256 and 512. -/
theorem sign_returns_three_slices_witness :
    (loadedRegistry.sign_func ≠ 0 ∧
      (sampleHost 0).call loadedRegistry.sign_func "cmd" [1, 2, 3]
        (toCInt ([1, 2, 3] : List Byte).length) 1 OutputBuf.zero = some (0, sampleBuf) ∧
      (∀ i, (sampleHost 0).bytes_ok i = true) ∧ (sampleHost 0).tuple_ok = true) ∧
    sampleBuf.at 255 (by decide) = 5 ∧ sampleBuf.at 511 (by decide) = 3 ∧
    sampleBuf.at 767 (by decide) = 10 ∧
    py_sign (sampleHost 0) loadedRegistry "cmd" [1, 2, 3] 1 =
      .done loadedRegistry [Event.call 0x7f0000002a40]
        (.ok ([16, 17, 18, 19, 20], [32, 33, 34], [48, 49, 50, 51, 52, 53, 54, 55, 56, 57])) := by
  have hyp : loadedRegistry.sign_func ≠ 0 ∧
      (sampleHost 0).call loadedRegistry.sign_func "cmd" [1, 2, 3]
        (toCInt ([1, 2, 3] : List Byte).length) 1 OutputBuf.zero = some (0, sampleBuf) ∧
      (∀ i, (sampleHost 0).bytes_ok i = true) ∧ (sampleHost 0).tuple_ok = true :=
    ⟨by decide, rfl, fun _ => rfl, rfl⟩
  have hthm := sign_returns_three_slices (sampleHost 0) loadedRegistry "cmd" [1, 2, 3] 1
    sampleBuf hyp.1 hyp.2.1 hyp.2.2.1 hyp.2.2.2
  refine ⟨hyp, by decide, by decide, by decide, ?_⟩
  rw [hthm.1]
  decide

/-- C8: on a resolved registry, when the callee returns a non-zero code,
`sign` raises `SignFailureError` and returns no byte sequences, whatever the
buffer holds. -/
theorem sign_nonzero_code_raises (h : Host) (r : Registry) (cmd : String)
    (src_data : List Byte) (seq : Int) (rc : Int) (B : OutputBuf) (hres : r.sign_func ≠ 0)
    (hcall : h.call r.sign_func cmd src_data (toCInt src_data.length) seq OutputBuf.zero
      = some (rc, B))
    (hrc : rc ≠ 0) :
    py_sign h r cmd src_data seq =
      .done r [Event.call r.sign_func] (.raise SignFailureError) := by
  unfold py_sign
  rw [if_neg hres, hcall]
  simp only [ne_eq, hrc, not_false_eq_true, if_true]

/-- C8, worked example: return code 1 with length bytes 5, 3 and 10 in the buffer. -/
theorem sign_nonzero_code_raises_witness :
    (loadedRegistry.sign_func ≠ 0 ∧
      (sampleHost 1).call loadedRegistry.sign_func "cmd" [1, 2, 3]
        (toCInt ([1, 2, 3] : List Byte).length) 1 OutputBuf.zero = some (1, sampleBuf) ∧
      (1 : Int) ≠ 0) ∧
    py_sign (sampleHost 1) loadedRegistry "cmd" [1, 2, 3] 1 =
      .done loadedRegistry [Event.call loadedRegistry.sign_func] (.raise SignFailureError) :=
  ⟨⟨by decide, rfl, by decide⟩,
    sign_nonzero_code_raises (sampleHost 1) loadedRegistry "cmd" [1, 2, 3] 1 1 sampleBuf
      (by decide) rfl (by decide)⟩

/-- C10: whenever `sign` runs on a resolved registry and the callee returns 0
leaving the buffer `B`, whatever `B` holds: the three lengths `sign` reads are
at most 255; the three reads `sign` makes are defined, so `sign` never takes an
out-of-bounds branch (its only undefined outcome is a failed `PyTuple_New`);
what `sign` returns is exactly `B[0 .. len0)`, `B[256 .. 256+len1)`,
`B[512 .. 512+len2)`, every returned byte being the buffer byte at an index of
its own slot below the slot length byte; and these index ranges lie in
`[0,255)`, `[256,511)`, `[512,767)`, are pairwise disjoint, stay below 768 and
contain none of 255, 511, 767. -/
theorem sign_slices_stay_in_slots (h : Host) (r : Registry) (cmd : String)
    (src_data : List Byte) (seq : Int) (B : OutputBuf) (hres : r.sign_func ≠ 0)
    (hcall : h.call r.sign_func cmd src_data (toCInt src_data.length) seq OutputBuf.zero
      = some (0, B)) :
    (token_len B ≤ 255 ∧ extra_len B ≤ 255 ∧ sign_len B ≤ 255) ∧
    (readBuf B 0 (token_len B) = some (B.bytes.take (token_len B)) ∧
      readBuf B 0x100 (extra_len B) = some ((B.bytes.drop 0x100).take (extra_len B)) ∧
      readBuf B 0x200 (sign_len B) = some ((B.bytes.drop 0x200).take (sign_len B))) ∧
    py_sign h r cmd src_data seq =
      (if h.bytes_ok 0 && h.bytes_ok 1 && h.bytes_ok 2 then
        if h.tuple_ok then
          .done r [Event.call r.sign_func]
            (.ok (B.bytes.take (token_len B), (B.bytes.drop 0x100).take (extra_len B),
              (B.bytes.drop 0x200).take (sign_len B)))
        else .undefined
      else .done r [Event.call r.sign_func] (.raise HostMemoryError)) ∧
    (py_sign h r cmd src_data seq = .undefined ↔
      (h.bytes_ok 0 && h.bytes_ok 1 && h.bytes_ok 2) = true ∧ h.tuple_ok = false) ∧
    ((∀ j, j < token_len B →
        (B.bytes.take (token_len B))[j]? = B.bytes[0 + j]? ∧ 0 + j < 255) ∧
      (∀ j, j < extra_len B →
        ((B.bytes.drop 0x100).take (extra_len B))[j]? = B.bytes[256 + j]? ∧
          256 ≤ 256 + j ∧ 256 + j < 511) ∧
      (∀ j, j < sign_len B →
        ((B.bytes.drop 0x200).take (sign_len B))[j]? = B.bytes[512 + j]? ∧
          512 ≤ 512 + j ∧ 512 + j < 767)) ∧
    (Finset.Ico 0 (0 + token_len B) ⊆ Finset.Ico 0 255 ∧
      Finset.Ico 256 (256 + extra_len B) ⊆ Finset.Ico 256 511 ∧
      Finset.Ico 512 (512 + sign_len B) ⊆ Finset.Ico 512 767) ∧
    (Disjoint (Finset.Ico 0 (0 + token_len B)) (Finset.Ico 256 (256 + extra_len B)) ∧
      Disjoint (Finset.Ico 0 (0 + token_len B)) (Finset.Ico 512 (512 + sign_len B)) ∧
      Disjoint (Finset.Ico 256 (256 + extra_len B)) (Finset.Ico 512 (512 + sign_len B))) ∧
    (Finset.Ico 0 (0 + token_len B) ∪ Finset.Ico 256 (256 + extra_len B)
        ∪ Finset.Ico 512 (512 + sign_len B) ⊆ Finset.range 768 \ {255, 511, 767}) := by
  obtain ⟨ht, he, hs⟩ := slices_in_slots B
  have r0 := (readBuf_of_le B 0 (token_len B) (by omega)).1
  have r1 := (readBuf_of_le B 0x100 (extra_len B) (by omega)).1
  have r2 := (readBuf_of_le B 0x200 (sign_len B) (by omega)).1
  rw [List.drop_zero] at r0
  have hsign : py_sign h r cmd src_data seq =
      (if h.bytes_ok 0 && h.bytes_ok 1 && h.bytes_ok 2 then
        if h.tuple_ok then
          .done r [Event.call r.sign_func]
            (.ok (B.bytes.take (token_len B), (B.bytes.drop 0x100).take (extra_len B),
              (B.bytes.drop 0x200).take (sign_len B)))
        else .undefined
      else .done r [Event.call r.sign_func] (.raise HostMemoryError)) := by
    unfold py_sign
    rw [if_neg hres, hcall]
    simp only [ne_eq, not_true_eq_false, if_false, r0, r1, r2]
    cases hb : (h.bytes_ok 0 && h.bytes_ok 1 && h.bytes_ok 2) <;>
      cases htu : h.tuple_ok <;> simp
  refine ⟨⟨by omega, by omega, by omega⟩, ⟨r0, r1, r2⟩, hsign, ?_, ⟨?_, ?_, ?_⟩, ⟨?_, ?_, ?_⟩,
    ⟨?_, ?_, ?_⟩, ?_⟩
  · rw [hsign]
    cases hb : (h.bytes_ok 0 && h.bytes_ok 1 && h.bytes_ok 2) <;>
      cases htu : h.tuple_ok <;> simp
  · intro j hj
    refine ⟨?_, by omega⟩
    rw [List.getElem?_take_of_lt hj, Nat.zero_add]
  · intro j hj
    refine ⟨?_, by omega, by omega⟩
    rw [List.getElem?_take_of_lt hj, List.getElem?_drop]
  · intro j hj
    refine ⟨?_, by omega, by omega⟩
    rw [List.getElem?_take_of_lt hj, List.getElem?_drop]
  · intro i hi
    simp only [Finset.mem_Ico] at hi ⊢
    omega
  · intro i hi
    simp only [Finset.mem_Ico] at hi ⊢
    omega
  · intro i hi
    simp only [Finset.mem_Ico] at hi ⊢
    omega
  · rw [Finset.disjoint_left]
    intro i hi hj
    simp only [Finset.mem_Ico] at hi hj
    omega
  · rw [Finset.disjoint_left]
    intro i hi hj
    simp only [Finset.mem_Ico] at hi hj
    omega
  · rw [Finset.disjoint_left]
    intro i hi hj
    simp only [Finset.mem_Ico] at hi hj
    omega
  · intro i hi
    simp only [Finset.mem_union, Finset.mem_Ico, Finset.mem_sdiff,
      Finset.mem_range, Finset.mem_insert, Finset.mem_singleton] at hi ⊢
    omega

set_option maxRecDepth 100000 in
/-- C10, worked example at the extreme: every byte of the buffer is `0xFF`, so
the three lengths are 255; `sign` is defined and returns three slices of 255
bytes each. -/
theorem sign_slices_stay_in_slots_witness :
    (loadedRegistry.sign_func ≠ 0 ∧
      fullHost.call loadedRegistry.sign_func "cmd" [1, 2, 3]
        (toCInt ([1, 2, 3] : List Byte).length) 1 OutputBuf.zero = some (0, fullBuf)) ∧
    (token_len fullBuf = 255 ∧ extra_len fullBuf = 255 ∧ sign_len fullBuf = 255) ∧
    py_sign fullHost loadedRegistry "cmd" [1, 2, 3] 1 =
      .done loadedRegistry [Event.call 0x7f0000002a40]
        (.ok (List.replicate 255 255, List.replicate 255 255, List.replicate 255 255)) ∧
    py_sign fullHost loadedRegistry "cmd" [1, 2, 3] 1 ≠ .undefined := by
  have hthm := sign_slices_stay_in_slots fullHost loadedRegistry "cmd" [1, 2, 3] 1 fullBuf
    (by decide) rfl
  have hne : py_sign fullHost loadedRegistry "cmd" [1, 2, 3] 1 ≠ .undefined := by
    intro hu
    exact absurd (hthm.2.2.2.1.mp hu).2 (by decide)
  refine ⟨⟨by decide, rfl⟩, by decide, ?_, hne⟩
  rw [hthm.2.2.1]
  decide

/-! ## Facts about `load_module` -/

/-- The prefix test agrees with `List.IsPrefix`. -/
theorem startsWith_iff (hay needle : List Char) : startsWith hay needle = true ↔ needle <+: hay := by
  induction hay generalizing needle with
  | nil =>
    cases needle with
    | nil => simp [startsWith]
    | cons n ns => simp [startsWith]
  | cons h hs ih =>
    cases needle with
    | nil => simp [startsWith]
    | cons n ns =>
      simp only [startsWith, Bool.and_eq_true, beq_iff_eq, ih, List.cons_prefix_cons]
      constructor
      · rintro ⟨rfl, h2⟩; exact ⟨rfl, h2⟩
      · rintro ⟨rfl, h2⟩; exact ⟨rfl, h2⟩

/-- The substring test agrees with `List.IsInfix`. -/
theorem occursIn_iff (needle hay : List Char) : occursIn needle hay = true ↔ needle <:+: hay := by
  induction hay with
  | nil => simp [occursIn, startsWith_iff]
  | cons h hs ih =>
    simp only [occursIn, Bool.or_eq_true, startsWith_iff, ih, List.infix_cons_iff]

/-- The model of `strstr` finds exactly the substrings. -/
theorem strstr_iff (haystack needle : String) :
    strstr haystack needle = true ↔ needle.data <:+: haystack.data :=
  occursIn_iff _ _

/-- When every auxiliary library opens the loop opens all of them and does not fail. -/
theorem preload_all_open (p : Platform) (paths : List String)
    (h : ∀ lib ∈ paths, p.dlopen lib (RTLD_LAZY ||| RTLD_GLOBAL) ≠ 0) :
    preload p paths
      = (paths.map (fun lib => Event.dlopen lib (RTLD_LAZY ||| RTLD_GLOBAL)), false) := by
  induction paths with
  | nil => rfl
  | cons lib rest ih =>
    have h1 := h lib (List.mem_cons_self _ _)
    have h2 := ih (fun l hl => h l (List.mem_cons_of_mem _ hl))
    simp only [preload, h1, if_false, h2, List.map_cons]

/-- The walk writes the base of the first object whose name contains
`wrapper.node`, and writes nothing when there is none. -/
theorem dl_iterate_phdr_callback (l : List dl_phdr_info) (r : Registry) :
    dl_iterate_phdr callback l r =
      match l.find? nameContainsTarget with
      | some info => { r with module_base := info.dlpi_addr }
      | none => r := by
  induction l with
  | nil => rfl
  | cons info rest ih =>
    rcases info with ⟨addr, name⟩
    cases name with
    | none =>
      simp only [dl_iterate_phdr, callback, ne_eq, not_true_eq_false, if_false, ih,
        List.find?_cons, nameContainsTarget]
    | some nm =>
      by_cases hs : strstr nm "wrapper.node" = true
      · simp [dl_iterate_phdr, callback, hs, List.find?_cons, nameContainsTarget]
      · simp [dl_iterate_phdr, callback, hs, List.find?_cons, nameContainsTarget, ih]

/-- A call of `load_module` that returns normally leaves `libs` and `offset`
as they were, a non-null handle, a non-zero base and a pointer that is
`module_base + offset` and at least `0x1000`. -/
theorem py_load_module_ok (p : Platform) (r r1 : Registry) (log : List Event)
    (h : py_load_module p r = .done r1 log (.ok ())) :
    r1.libs = r.libs ∧ r1.offset = r.offset ∧ r1.module ≠ 0 ∧ r1.module_base ≠ 0 ∧
      r1.sign_func = (r1.module_base + r1.offset) % PTR_MOD ∧ 0x1000 ≤ r1.sign_func := by
  simp only [py_load_module, dl_iterate_phdr_callback] at h
  split at h
  · exact absurd h (by simp)
  · exact absurd h (by simp)
  · split at h
    · exact absurd h (by simp)
    · split at h
      · exact absurd h (by simp)
      · rename_i hmod
        split at h
        · exact absurd h (by simp)
        · rename_i hbase
          split at h
          · exact absurd h (by simp)
          · rename_i hptr
            simp only [Step.done.injEq, and_true] at h
            obtain ⟨hr, -⟩ := h
            subst hr
            cases hf : p.phdrs.find? nameContainsTarget with
            | none =>
              rw [hf] at hbase hptr
              simp only at hbase hptr ⊢
              exact ⟨trivial, trivial, hmod, hbase, trivial, Nat.le_of_not_lt hptr⟩
            | some info =>
              rw [hf] at hbase hptr
              simp only at hbase hptr ⊢
              exact ⟨trivial, trivial, hmod, hbase, trivial, Nat.le_of_not_lt hptr⟩

/-- A call of `load_module` that reaches the pointer check and fails it raises
`InvalidPointerError` with the candidate already stored in `sign_func`, next
to the handle it has closed and the base it has found. -/
theorem py_load_module_invalid_pointer (p : Platform) (r : Registry) (paths : List String)
    (info : dl_phdr_info) (hlibs : r.libs = .live paths)
    (haux : ∀ lib ∈ paths, p.dlopen lib (RTLD_LAZY ||| RTLD_GLOBAL) ≠ 0)
    (hh : p.dlopen "./wrapper.node" RTLD_LAZY ≠ 0)
    (hfirst : p.phdrs.find? nameContainsTarget = some info) (hb0 : info.dlpi_addr ≠ 0)
    (hptr : (info.dlpi_addr + r.offset) % 2 ^ 64 < 4096) :
    py_load_module p r =
      .done { libs := r.libs, offset := r.offset, module_base := info.dlpi_addr,
              module := p.dlopen "./wrapper.node" RTLD_LAZY,
              sign_func := (info.dlpi_addr + r.offset) % 2 ^ 64 }
        (paths.map (fun lib => Event.dlopen lib (RTLD_LAZY ||| RTLD_GLOBAL))
          ++ [Event.dlopen "./wrapper.node" RTLD_LAZY]
          ++ [Event.dlclose (p.dlopen "./wrapper.node" RTLD_LAZY)])
        (.raise InvalidPointerError) := by
  simp only [py_load_module, dl_iterate_phdr_callback, hlibs, preload_all_open p paths haux,
    Bool.false_eq_true, if_false, hh, hfirst, hb0, PTR_MOD]
  rw [if_pos hptr]

/-- The copying loop, started at index `i`, stops at the first element that is
not a `str` and frees the array, when the strings before it are duplicated. -/
theorem set_libs_loop_non_string (a : Alloc) (strs : List String) (rest : List PyItem)
    (i : Nat) (copied : List String) (hs : ∀ j, j < strs.length → a.strdup_ok (i + j) = true) :
    set_libs_loop a (strs.map (fun s => PyItem.unicode (some s)) ++ PyItem.other :: rest) i copied
      = some (.freed, .raise InvalidArgument) := by
  induction strs generalizing i copied with
  | nil => rfl
  | cons s ss ih =>
    have h0 : a.strdup_ok i = true := by simpa using hs 0 (by simp)
    simp only [List.map_cons, List.cons_append, set_libs_loop, h0, if_true]
    apply ih
    intro j hj
    have := hs (j + 1) (by simpa using hj)
    rwa [show i + (j + 1) = i + 1 + j by omega] at this

/-- Whatever the registry, a `set_libs` call that meets a non-`str` element
after successfully copied strings raises `InvalidArgument` and leaves `libs`
addressing the freed array. -/
theorem py_set_libs_non_string (a : Alloc) (r : Registry) (strs : List String)
    (rest : List PyItem) (hm : a.malloc_ok = true)
    (hs : ∀ j, j < strs.length → a.strdup_ok j = true) :
    py_set_libs a (.list (strs.map (fun s => PyItem.unicode (some s)) ++ PyItem.other :: rest)) r
      = .done { libs := .freed, offset := r.offset, module_base := r.module_base,
                module := r.module, sign_func := r.sign_func } [] (.raise InvalidArgument) := by
  have hl := set_libs_loop_non_string a strs rest 0 [] (by simpa using hs)
  simp only [py_set_libs, hm, Bool.not_true, Bool.false_eq_true, if_false, hl]

/-! ## Claims about `load_module`, `unload_module` and `set_libs` -/

/-- C5: on a registry with a configured auxiliary list and offset, when every
auxiliary library opens, the target opens with handle `h`, the first
enumerated object whose name contains `wrapper.node` has non-zero base `b`
and `(b + offset) mod 2^64` is at least 4096, `load_module` succeeds and
commits `module = h`, `module_base = b`, `sign_func = (b + offset) mod 2^64`,
with `offset` and `libs` unchanged. -/
theorem load_module_commits (p : Platform) (r : Registry) (paths : List String) (h b : Nat)
    (info : dl_phdr_info) (hlibs : r.libs = .live paths)
    (haux : ∀ lib ∈ paths, p.dlopen lib (RTLD_LAZY ||| RTLD_GLOBAL) ≠ 0)
    (htarget : p.dlopen "./wrapper.node" RTLD_LAZY = h) (hh : h ≠ 0)
    (hfirst : p.phdrs.find? nameContainsTarget = some info)
    (hb : info.dlpi_addr = b) (hb0 : b ≠ 0) (hptr : 4096 ≤ (b + r.offset) % 2 ^ 64) :
    py_load_module p r =
      .done { libs := r.libs, offset := r.offset, module_base := b, module := h,
              sign_func := (b + r.offset) % 2 ^ 64 }
        (paths.map (fun lib => Event.dlopen lib (RTLD_LAZY ||| RTLD_GLOBAL))
          ++ [Event.dlopen "./wrapper.node" RTLD_LAZY])
        (.ok ()) := by
  subst htarget hb
  simp only [py_load_module, dl_iterate_phdr_callback, hlibs, preload_all_open p paths haux,
    Bool.false_eq_true, if_false, hh, hfirst, hb0, PTR_MOD]
  rw [if_neg (Nat.not_lt.mpr hptr)]

/-- C5, worked example: `libgnutls.so.30` and `./wrapper.node` open, the third
enumerated object is `wrapper.node` at `0x7f0000000000`, offset `0x2a40`. -/
theorem load_module_commits_witness :
    (configuredRegistry.libs = .live ["libgnutls.so.30"] ∧
      (∀ lib ∈ ["libgnutls.so.30"], samplePlatform.dlopen lib (RTLD_LAZY ||| RTLD_GLOBAL) ≠ 0) ∧
      samplePlatform.dlopen "./wrapper.node" RTLD_LAZY = 0x55550000 ∧
      (0x55550000 : Nat) ≠ 0 ∧
      samplePlatform.phdrs.find? nameContainsTarget
        = some ⟨0x7f0000000000, some "/opt/QQ/resources/app/./wrapper.node"⟩ ∧
      (0x7f0000000000 : Nat) ≠ 0 ∧
      4096 ≤ (0x7f0000000000 + configuredRegistry.offset) % 2 ^ 64) ∧
    py_load_module samplePlatform configuredRegistry =
      .done loadedRegistry
        [Event.dlopen "libgnutls.so.30" 0x101, Event.dlopen "./wrapper.node" 1] (.ok ()) :=
  ⟨⟨rfl, by decide, by decide, by decide, by decide, by decide, by decide⟩,
    load_module_commits samplePlatform configuredRegistry ["libgnutls.so.30"] 0x55550000
      0x7f0000000000 ⟨0x7f0000000000, some "/opt/QQ/resources/app/./wrapper.node"⟩ rfl
      (by decide) (by decide) (by decide) (by decide) rfl (by decide) (by decide)⟩

/-- C6: after a `load_module` that succeeded, `unload_module` closes the
handle and leaves `module` null, `sign_func` null and `module_base` zero, and a
following `sign` raises `NotLoadedError` for every command, payload and
sequence number without calling anything. -/
theorem sign_after_unload_not_loaded (p : Platform) (r r1 : Registry) (log : List Event)
    (hload : py_load_module p r = .done r1 log (.ok ()))
    (h : Host) (cmd : String) (src_data : List Byte) (seq : Int) :
    py_unload_module r1 =
        .done { libs := r1.libs, offset := r1.offset, module_base := 0, module := 0,
                sign_func := 0 } [Event.dlclose r1.module] (.ok ()) ∧
      py_sign h { libs := r1.libs, offset := r1.offset, module_base := 0, module := 0,
                  sign_func := 0 } cmd src_data seq =
        .done { libs := r1.libs, offset := r1.offset, module_base := 0, module := 0,
                sign_func := 0 } [] (.raise NotLoadedError) := by
  obtain ⟨-, -, hmod, -⟩ := py_load_module_ok p r r1 log hload
  refine ⟨?_, py_sign_unresolved h _ cmd src_data seq rfl⟩
  unfold py_unload_module
  rw [if_pos hmod]

/-- C6, worked example: load on the sample loader, unload, then sign. -/
theorem sign_after_unload_not_loaded_witness :
    py_load_module samplePlatform configuredRegistry =
        .done loadedRegistry
          [Event.dlopen "libgnutls.so.30" 0x101, Event.dlopen "./wrapper.node" 1] (.ok ()) ∧
      py_unload_module loadedRegistry =
        .done configuredRegistry [Event.dlclose 0x55550000] (.ok ()) ∧
      py_sign (sampleHost 0) configuredRegistry "cmd" [1, 2, 3] 1 =
        .done configuredRegistry [] (.raise NotLoadedError) :=
  ⟨by decide,
    sign_after_unload_not_loaded samplePlatform configuredRegistry loadedRegistry
      [Event.dlopen "libgnutls.so.30" 0x101, Event.dlopen "./wrapper.node" 1] (by decide)
      (sampleHost 0) "cmd" [1, 2, 3] 1⟩

/-- C9: in the initial registry `libs` is `NULL`, and `load_module` reads
`libs[0]` through it before anything else: the call is undefined on every
loader, it never reaches the `dlopen` of `./wrapper.node`. -/
theorem load_module_initial_undefined (p : Platform) :
    Registry.init.libs = .null ∧ py_load_module p Registry.init = .undefined :=
  ⟨rfl, rfl⟩

/-- C3: with base `0x7f0000000000` and offset `0xFFFF810000000010` the sum is
`0x10` modulo `2^64`; `load_module` raises `InvalidPointerError` and closes the
module, yet leaves `sign_func = 0x10` (not null), with `module` and
`module_base` written as well. -/
theorem load_module_invalid_pointer_kept :
    (0x7f0000000000 + wrapRegistry.offset) % 2 ^ 64 = 0x10 ∧
      py_load_module samplePlatform wrapRegistry =
        .done { libs := .live [], offset := 0xFFFF810000000010, module_base := 0x7f0000000000,
                module := 0x55550000, sign_func := 0x10 }
          [Event.dlopen "./wrapper.node" 1, Event.dlclose 0x55550000]
          (.raise InvalidPointerError) := by
  decide

/-- C2: starting from the initial registry, `set_libs([])`,
`set_offset(0xFFFF810000000010)` and a `load_module` that fails with
`InvalidPointerError` leave `sign_func = 0x10` although no load succeeded; the
following `sign` does not raise `NotLoadedError` but calls address `0x10`: the
outcome is undefined where nothing is mapped there, and is whatever the code at
that address answers otherwise. -/
theorem sign_after_failed_load_calls :
    runCalls [.set_libs goodAlloc (.list []), .set_offset 0xFFFF810000000010,
        .load_module samplePlatform] Registry.init
      = some ({ libs := .live [], offset := 0xFFFF810000000010,
                module_base := 0x7f0000000000, module := 0x55550000, sign_func := 0x10 },
              false) ∧
    py_sign mappedHost
        { libs := .live [], offset := 0xFFFF810000000010, module_base := 0x7f0000000000,
          module := 0x55550000, sign_func := 0x10 } "cmd" [1, 2, 3] 1 = .undefined ∧
    py_sign (sampleHost 1)
        { libs := .live [], offset := 0xFFFF810000000010, module_base := 0x7f0000000000,
          module := 0x55550000, sign_func := 0x10 } "cmd" [1, 2, 3] 1
      = .done { libs := .live [], offset := 0xFFFF810000000010,
                module_base := 0x7f0000000000, module := 0x55550000, sign_func := 0x10 }
          [Event.call 0x10] (.raise SignFailureError) := by
  refine ⟨by decide, by rfl, by rfl⟩

/-- C4: two failing calls of `load_module` that change the registry.  On a
loaded registry, when `./wrapper.node` no longer opens, the call raises
`DynamicLoadError` and has overwritten `module` with `NULL` (the old handle is
lost, `sign_func` still points into the module).  On an unloaded registry, when
the pointer check fails, the call raises `InvalidPointerError` and has written
`module`, `module_base` and `sign_func`; the handle left in `module` is
already closed, and `unload_module` closes it a second time. -/
theorem load_module_failure_changes_registry :
    (py_load_module targetMissingPlatform loadedRegistry =
        .done { libs := .live ["libgnutls.so.30"], offset := 0x2a40,
                module_base := 0x7f0000000000, module := 0, sign_func := 0x7f0000002a40 }
          [Event.dlopen "libgnutls.so.30" 0x101, Event.dlopen "./wrapper.node" 1]
          (.raise (DynamicLoadError "./wrapper.node: cannot open shared object file")) ∧
      loadedRegistry.module = 0x55550000) ∧
    (py_load_module samplePlatform wrapRegistry =
        .done { libs := .live [], offset := 0xFFFF810000000010, module_base := 0x7f0000000000,
                module := 0x55550000, sign_func := 0x10 }
          [Event.dlopen "./wrapper.node" 1, Event.dlclose 0x55550000]
          (.raise InvalidPointerError) ∧
      wrapRegistry.module = 0 ∧ wrapRegistry.module_base = 0 ∧ wrapRegistry.sign_func = 0 ∧
      py_unload_module
          { libs := .live [], offset := 0xFFFF810000000010, module_base := 0x7f0000000000,
            module := 0x55550000, sign_func := 0x10 } =
        .done wrapRegistry [Event.dlclose 0x55550000] (.ok ())) := by
  decide

/-- C7: after `set_libs(["liba.so"])` succeeded, `set_libs(["libb.so", 1])`
raises `InvalidArgument`, and `libs` is neither the previous list nor any list:
it addresses the block the call has just freed, so that the next
`load_module` is undefined. -/
theorem set_libs_non_string_frees_list :
    py_set_libs goodAlloc (.list [.unicode (some "liba.so")]) Registry.init =
        .done { libs := .live ["liba.so"], offset := 0, module_base := 0, module := 0,
                sign_func := 0 } [] (.ok ()) ∧
      py_set_libs goodAlloc (.list [.unicode (some "libb.so"), .other])
          { libs := .live ["liba.so"], offset := 0, module_base := 0, module := 0,
            sign_func := 0 } =
        .done { libs := .freed, offset := 0, module_base := 0, module := 0, sign_func := 0 } []
          (.raise InvalidArgument) ∧
      py_load_module samplePlatform
          { libs := .freed, offset := 0, module_base := 0, module := 0, sign_func := 0 } =
        .undefined := by
  decide

end CSigner
